import Mathlib

/-!
Shallow embedding of the `AirtableClient` library (`src/index.ts`) from
`ensembleblock/airtable`.

The client issues HTTP requests through `fetch`; we model the network as an
explicit argument (a function from the request index to the response of the server for list requests, plus fixed responses for create/get/update) and
every operation returns the list of requests it issued together with either
a result or the error it threw.  JavaScript strict equality (`===`) on
values that crossed the JSON wire boundary is modelled by `jsStrictEq`:
structural on primitives, `false` on arrays and nested objects (an array or object held by the caller is never reference-identical to one freshly parsed from a
response body).  JavaScript objects are modelled as association lists in
insertion order; object spread `{...a, ...b}` is `jsSpread`.
-/

namespace Airtable

/-- A field value as it appears in a `FieldsObj`
(`boolean | Date | null | number | Record<string,string> | string | string[] | undefined`).
Dates are irrelevant to the verified claims and are not separated from strings.
Numbers are modelled as integers (every numeric literal in the claims is one). -/
inductive FieldValue where
  | str (s : String)
  | num (n : Int)
  | boolean (b : Bool)
  | null
  | undef
  | arr (xs : List String)
  | obj (kvs : List (String × String))
deriving DecidableEq, Repr

/-- A JavaScript object with `FieldValue` values: keys in insertion order. -/
abbrev FieldsObj := List (String × FieldValue)

/-- JavaScript `===` between a value held by the caller and a value parsed
from a server response (or vice versa).  Primitives compare structurally;
arrays and nested objects compare by reference, and a freshly JSON-parsed
array/object is never the same reference as one held by the caller, so `===` is
`false` on them. -/
def jsStrictEq : FieldValue → FieldValue → Bool
  | .str a, .str b => a == b
  | .num a, .num b => a == b
  | .boolean a, .boolean b => a == b
  | .null, .null => true
  | .undef, .undef => true
  | _, _ => false

/-- JavaScript truthiness of an `Option String` (absent, or a string:
the empty string is falsy). -/
def strTruthy : Option String → Bool
  | none => false
  | some s => s != ""

/-- JavaScript truthiness of an optional number (`undefined`/`null`/`0` are falsy). -/
def numTruthy : Option Int → Bool
  | none => false
  | some n => n != 0

/-- Set key `k` to `v` in a JS object: updates in place when present,
appends when absent (JS property-assignment semantics). -/
def setKey (o : FieldsObj) (k : String) (v : FieldValue) : FieldsObj :=
  if (o.lookup k).isSome then o.map (fun p => if p.1 == k then (k, v) else p)
  else o ++ [(k, v)]

/-- JS object spread `{...a, ...b}`: later keys override, insertion order kept. -/
def jsSpread (a b : FieldsObj) : FieldsObj :=
  b.foldl (fun acc p => setKey acc p.1 p.2) a

/-- Source helper `isNonEmptyStr`. -/
def isNonEmptyStr (s : String) : Bool := decide (0 < s.length)

/-- JS `String.prototype.startsWith` (prefix test on the character sequence). -/
def strStartsWith (s p : String) : Bool := p.data.isPrefixOf s.data

/-- JS `String.prototype.toUpperCase` (character-wise upper-casing). -/
def strToUpper (s : String) : String := ⟨s.data.map Char.toUpper⟩

/-- Source helper `isValidRecordId`:
`typeof recordId === "string" && recordId.length > 10 && recordId.startsWith("rec")`. -/
def isValidRecordId (recordId : String) : Bool :=
  decide (10 < recordId.length) && strStartsWith recordId "rec"

/-- An Airtable record as parsed from a response body
(`createdTime` is irrelevant to the claims). -/
structure AirtableRecord where
  id : String
  fields : FieldsObj
deriving DecidableEq, Repr

/-- The errors the client throws. -/
inductive AirtableError where
  | validation (msg : String)
  | http (status : Nat) (statusText : String)
  | runawayPagination
  | badServerRecordId (msg : String)
deriving DecidableEq, Repr

/-- The body of one `listRecords` POST request. -/
structure ListPayload where
  fields : Option (List String) := none
  filterByFormula : Option String := none
  maxRecords : Option Int := none
  offset : Option String := none
deriving DecidableEq, Repr

/-- One outbound request, as observed on the wire. -/
inductive ApiRequest where
  | list (table : String) (payload : ListPayload)
  | create (table : String) (fields : FieldsObj)
  | update (table : String) (recordId : String) (method : String) (fields : FieldsObj)
  | get (table : String) (recordId : String)
deriving DecidableEq, Repr

/-- The response of the server to one `listRecords` request. -/
structure ListResponse where
  ok : Bool := true
  status : Nat := 200
  statusText : String := ""
  records : List AirtableRecord := []
  offset : Option String := none
deriving DecidableEq, Repr

/-- The normalized `{data, ok, status, statusText}` the client returns for
create/get/update calls. -/
structure AirtableResponse where
  data : AirtableRecord
  ok : Bool := true
  status : Nat := 200
  statusText : String := ""
deriving DecidableEq, Repr

/-- Options of `findMany` (the `tableIdOrName` plus the optional knobs).
`maxRecords?: number | null` and `modifiedSinceHours?: number | null`:
`none` covers both `undefined` and `null` (they behave identically in the
validation and payload construction, both being falsy and distinct from `0`;
an explicit `0` is `some 0`). -/
structure FindManyOpts where
  fields : Option (List String) := none
  filterByFormula : Option String := none
  includeAirtableId : Bool := false
  maxRecords : Option Int := none
  modifiedSinceHours : Option Int := none
  tableIdOrName : String
deriving DecidableEq, Repr

/-- The formula synthesized from `modifiedSinceHours`
(template literal at src/index.ts:442). -/
def synthFormula (h : Int) : String :=
  "\x7blastModifiedTime\x7d>=DATETIME_FORMAT(DATEADD(NOW(),-" ++ toString h ++
    ",\x27hours\x27))"

/-- The validation prologue of `findMany` (src/index.ts:366-418), returning
the message of the first failing check, in source order.  The
`filterByFormula` check can never fire for a value of its declared type
(a truthy string is a non-empty string), and is kept literally. -/
def findManyValidate (o : FindManyOpts) : Option String :=
  match o.fields with
  | some fs =>
    if ¬(0 < fs.length ∧ ∀ f ∈ fs, isNonEmptyStr f = true) then
      some "Airtable findMany expected \x27fields\x27 to be a lengthy array of strings"
    else findManyValidateRest o
  | none => findManyValidateRest o
where
  findManyValidateRest (o : FindManyOpts) : Option String :=
    if strTruthy o.filterByFormula ∧
        ¬(∀ s, o.filterByFormula = some s → isNonEmptyStr s = true) then
      some "Airtable findMany expected \x27filterByFormula\x27 to be a non-string when given"
    else if (numTruthy o.maxRecords ∧ ∀ n, o.maxRecords = some n → n < 1) ∨
        o.maxRecords = some 0 then
      some "Airtable findMany expected \x27maxRecords\x27 to be a positive integer"
    else if (numTruthy o.modifiedSinceHours ∧
        ∀ n, o.modifiedSinceHours = some n → n < 1) ∨
        o.modifiedSinceHours = some 0 then
      some "Airtable findMany expected \x27modifiedSinceHours\x27 to be a positive integer"
    else if strTruthy o.filterByFormula ∧ numTruthy o.modifiedSinceHours then
      some "Airtable findMany cannot use both \x27filterByFormula\x27 and \x27modifiedSinceHours\x27"
    else if ¬ isNonEmptyStr o.tableIdOrName then
      some "Airtable findMany expected \x27tableIdOrName\x27 to be a non-empty string"
    else none

/-- The `basePayload` built by `findMany` (src/index.ts:433-447). -/
def mkBasePayload (o : FindManyOpts) : ListPayload :=
  { fields := o.fields
    filterByFormula :=
      if strTruthy o.filterByFormula then o.filterByFormula
      else if numTruthy o.modifiedSinceHours then
        some (synthFormula ((o.modifiedSinceHours).getD 0))
      else none
    maxRecords := if numTruthy o.maxRecords then o.maxRecords else none
    offset := none }

/-- The pagination loop of `findMany` (src/index.ts:455-517), with the server
modelled as the function from the request index to its response.  Returns the
requests issued (in order) and either the buffered pages or the thrown error.
State mirrors the source: `numRequestsMade` and the `offset` variable (which
is `null` or a truthy string).  The `fuel` argument only makes the recursion
structural; `findMany` supplies `502` and the iteration cap aborts at
`numRequestsMade = 501`, so with `501 - numRequestsMade < fuel` the
zero-fuel case is unreachable (its value is the abort of the cap, the only
outcome the loop body admits once `500 < numRequestsMade`). -/
def listLoop (server : Nat → ListResponse) (basePayload : ListPayload)
    (table : String) :
    Nat → Nat → Option String → List ApiRequest → List (List AirtableRecord) →
    List ApiRequest × Except AirtableError (List (List AirtableRecord))
  | 0, numRequestsMade, offset, reqs, agg =>
    if numRequestsMade = 0 ∨ strTruthy offset then (reqs, .error .runawayPagination)
    else (reqs, .ok agg)
  | fuel + 1, numRequestsMade, offset, reqs, agg =>
    if numRequestsMade = 0 ∨ strTruthy offset then
      if 500 < numRequestsMade then (reqs, .error .runawayPagination)
      else
        let payload : ListPayload :=
          if strTruthy offset then { basePayload with offset := offset }
          else basePayload
        let res := server numRequestsMade
        let reqs' := reqs ++ [ApiRequest.list table payload]
        if res.ok = false then (reqs', .error (.http res.status res.statusText))
        else
          let agg' := if 0 < res.records.length then agg ++ [res.records] else agg
          let offset' := if strTruthy res.offset then res.offset else none
          listLoop server basePayload table fuel (numRequestsMade + 1) offset' reqs' agg'
    else (reqs, .ok agg)

/-- Mapping applied to each record after flattening
(`basicMapFn` / `complexMapFn`, src/index.ts:523-534). -/
def mapRecord (includeAirtableId : Bool) (r : AirtableRecord) : FieldsObj :=
  if includeAirtableId then jsSpread [("_airtableId", FieldValue.str r.id)] r.fields
  else r.fields

/-- Operation `findMany` (src/index.ts:356-546): validation, base payload, pagination
loop, flatten and map.  Returns the issued requests and the result or error. -/
def findMany (o : FindManyOpts) (server : Nat → ListResponse) :
    List ApiRequest × Except AirtableError (List FieldsObj) :=
  match findManyValidate o with
  | some msg => ([], .error (.validation msg))
  | none =>
    let r := listLoop server (mkBasePayload o) o.tableIdOrName 502 0 none [] []
    (r.1, r.2.map (fun agg => agg.flatten.map (mapRecord o.includeAirtableId)))

/-- A `where` value (`string | number | boolean`). -/
inductive WhereValue where
  | str (s : String)
  | num (n : Int)
  | boolean (b : Bool)
deriving DecidableEq, Repr

/-- JS template-literal rendering of a `where` value (`${value}`). -/
def WhereValue.render : WhereValue → String
  | .str s => s
  | .num n => toString n
  | .boolean b => if b then "true" else "false"

/-- Embedding of a `where` value into a record field value
(for `{...$set, ...where}` in `upsertRecord`). -/
def WhereValue.toFieldValue : WhereValue → FieldValue
  | .str s => .str s
  | .num n => .num n
  | .boolean b => .boolean b

/-- Options of `findFirst`.  The `where` object is an association list with
its keys in insertion order (`Object.entries` order). -/
structure FindFirstOpts where
  fields : Option (List String) := none
  includeAirtableId : Bool := false
  tableIdOrName : String
  whereClause : List (String × WhereValue)
deriving DecidableEq, Repr

/-- Operation `findFirst` (src/index.ts:285-348): validates, builds a
`\x7bfield\x7d=\x27value\x27` formula (braces around the field name,
single quotes around the value) from the single `where` pair, delegates to
`findMany` with `maxRecords = 1`, and returns the single mapped record or
`null` (`none`) when zero or several records came back. -/
def findFirst (o : FindFirstOpts) (server : Nat → ListResponse) :
    List ApiRequest × Except AirtableError (Option FieldsObj) :=
  match o.fields with
  | some fs =>
    if ¬(0 < fs.length ∧ ∀ f ∈ fs, isNonEmptyStr f = true) then
      ([], .error (.validation
        "Airtable findFirst expected \x27fields\x27 to be a lengthy array of strings"))
    else findFirstRun o server
  | none => findFirstRun o server
where
  findFirstRun (o : FindFirstOpts) (server : Nat → ListResponse) :
      List ApiRequest × Except AirtableError (Option FieldsObj) :=
    match o.whereClause with
    | [(fieldName, value)] =>
      if ¬ isNonEmptyStr o.tableIdOrName then
        ([], .error (.validation
          "Airtable findFirst expected \x27tableIdOrName\x27 to be a non-empty string"))
      else
        let fmOpts : FindManyOpts :=
          { fields := o.fields
            filterByFormula :=
              some ("\x7b" ++ fieldName ++ "\x7d=\x27" ++ value.render ++ "\x27")
            includeAirtableId := o.includeAirtableId
            maxRecords := some 1
            tableIdOrName := o.tableIdOrName }
        let r := findMany fmOpts server
        match r.2 with
        | .error e => (r.1, .error e)
        | .ok records =>
          if records.length = 1 then (r.1, .ok (records.head?))
          else (r.1, .ok none)
    | _ =>
      ([], .error (.validation
        "Airtable findFirst expected \x27where\x27 to have exactly one key-value pair"))

/-- Operation `createRecord` (src/index.ts:244-278): validates, issues one POST, and
returns the normalized response without inspecting `res.ok`. -/
def createRecord (fields : FieldsObj) (tableIdOrName : String)
    (resp : AirtableResponse) :
    List ApiRequest × Except AirtableError AirtableResponse :=
  if ¬ isNonEmptyStr tableIdOrName then
    ([], .error (.validation
      "Airtable createRecord expected \x27tableIdOrName\x27 to be a non-empty string"))
  else ([ApiRequest.create tableIdOrName fields], .ok resp)

/-- Operation `getRecord` (src/index.ts:560-592): validates the record id and table
name, issues one GET, and returns the normalized response. -/
def getRecord (recordId tableIdOrName : String) (resp : AirtableResponse) :
    List ApiRequest × Except AirtableError AirtableResponse :=
  if isValidRecordId recordId = false then
    ([], .error (.validation
      "Airtable getRecord expected \x27recordId\x27 to be string of at least 10 characters starting with \x27rec\x27"))
  else if ¬ isNonEmptyStr tableIdOrName then
    ([], .error (.validation
      "Airtable getRecord expected \x27tableIdOrName\x27 to be a non-empty string"))
  else ([ApiRequest.get tableIdOrName recordId], .ok resp)

/-- Operation `updateRecord` (src/index.ts:610-661): validates, issues one
PATCH/PUT with the uppercased method, returns the normalized response. -/
def updateRecord (fields : FieldsObj) (method : String)
    (recordId tableIdOrName : String) (resp : AirtableResponse) :
    List ApiRequest × Except AirtableError AirtableResponse :=
  if ¬([ "PATCH", "PUT" ].contains (strToUpper method)) then
    ([], .error (.validation
      "Airtable updateRecord expected \x27method\x27 to be \x27PATCH\x27 or \x27PUT\x27"))
  else if isValidRecordId recordId = false then
    ([], .error (.validation
      "Airtable updateRecord expected \x27recordId\x27 to be string of at least 10 characters starting with \x27rec\x27"))
  else if ¬ isNonEmptyStr tableIdOrName then
    ([], .error (.validation
      "Airtable updateRecord expected \x27tableIdOrName\x27 to be a non-empty string"))
  else ([ApiRequest.update tableIdOrName recordId (strToUpper method) fields], .ok resp)

/-- The server environment an `upsertRecord` call runs against: the list
responses of the list endpoint by request index, and the response bodies of the
create and update endpoints. -/
structure Server where
  pages : Nat → ListResponse
  createRes : AirtableResponse
  updateRes : AirtableResponse

/-- The three `upsertResult` values. -/
inductive UpsertResult where
  | RECORD_CREATED
  | RECORD_UNCHANGED
  | RECORD_UPDATED
deriving DecidableEq, Repr

/-- The object `upsertRecord` resolves with. -/
structure UpsertOutcome where
  airtableId : String
  upsertResult : UpsertResult
deriving DecidableEq, Repr

/-- Is a field value "empty" in the sense of `updateToMakeIsEmpty`
(src/index.ts:763-768): `"" | false | null | undefined | []`. -/
def updateToMakeIsEmpty : FieldValue → Bool
  | .str s => s == ""
  | .boolean b => b == false
  | .null => true
  | .undef => true
  | .arr xs => xs.isEmpty
  | _ => false

/-- The `fieldsToUpdate` accumulation loop of `upsertRecord`
(src/index.ts:751-779): a `$set` entry is skipped when it is `===` to the
existing value, or when the existing value is `undefined` (the server omits
empty fields) and the new value is itself empty. -/
def computeFieldsToUpdate (existingFields : FieldsObj) (set : FieldsObj) : FieldsObj :=
  set.foldl
    (fun acc kv =>
      let existing := (existingFields.lookup kv.1).getD .undef
      if jsStrictEq existing kv.2 then acc
      else if existing == .undef ∧ updateToMakeIsEmpty kv.2 then acc
      else setKey acc kv.1 kv.2)
    []

/-- Operation `upsertRecord` (src/index.ts:667-810).  `set` is `$set`.  Validates,
looks the record up with `findFirst` (requesting exactly the `$set` keys and
the Airtable id), then creates, returns unchanged, or updates.  Note the
update request carries the full `$set`, not the computed `fieldsToUpdate`
(src/index.ts:790). -/
def upsertRecord (set : FieldsObj) (tableIdOrName : String)
    (whereClause : List (String × WhereValue)) (server : Server) :
    List ApiRequest × Except AirtableError UpsertOutcome :=
  match whereClause with
  | [(whereKey, whereValue)] =>
    if (set.map Prod.fst).contains whereKey then
      ([], .error (.validation
        ("Airtable upsertRecord \x27$set\x27 should not include the \x27where\x27 key \x27" ++
          whereKey ++ "\x27")))
    else
      let ffOpts : FindFirstOpts :=
        { fields := some (set.map Prod.fst)
          includeAirtableId := true
          tableIdOrName := tableIdOrName
          whereClause := [(whereKey, whereValue)] }
      let ff := findFirst ffOpts server.pages
      match ff.2 with
      | .error e => (ff.1, .error e)
      | .ok none =>
        let createFields :=
          jsSpread set ([(whereKey, whereValue.toFieldValue)])
        let cr := createRecord createFields tableIdOrName server.createRes
        match cr.2 with
        | .error e => (ff.1 ++ cr.1, .error e)
        | .ok res =>
          if isValidRecordId res.data.id = false then
            (ff.1 ++ cr.1, .error (.badServerRecordId
              "Airtable upsertRecord failed to retrieve a valid \x27_airtableId\x27 from the created record"))
          else
            (ff.1 ++ cr.1, .ok ⟨res.data.id, .RECORD_CREATED⟩)
      | .ok (some foundRecord) =>
        let airtableIdVal := (foundRecord.lookup "_airtableId").getD .undef
        let existingFields := foundRecord.filter (fun p => p.1 != "_airtableId")
        match airtableIdVal with
        | .str airtableId =>
          if isValidRecordId airtableId = false then
            (ff.1, .error (.badServerRecordId
              "Airtable upsertRecord failed to retrieve a valid \x27_airtableId\x27 from the found record"))
          else
            let fieldsToUpdate := computeFieldsToUpdate existingFields set
            if fieldsToUpdate.length = 0 then
              (ff.1, .ok ⟨airtableId, .RECORD_UNCHANGED⟩)
            else
              let ur := updateRecord set "PATCH" airtableId tableIdOrName server.updateRes
              match ur.2 with
              | .error e => (ff.1 ++ ur.1, .error e)
              | .ok res =>
                if isValidRecordId res.data.id = false then
                  (ff.1 ++ ur.1, .error (.badServerRecordId
                    "Airtable upsertRecord failed to retrieve a valid \x27_airtableId\x27 from the updated record"))
                else
                  (ff.1 ++ ur.1, .ok ⟨res.data.id, .RECORD_UPDATED⟩)
        | _ =>
          (ff.1, .error (.badServerRecordId
            "Airtable upsertRecord failed to retrieve a valid \x27_airtableId\x27 from the found record"))
  | _ =>
    ([], .error (.validation
      "Airtable upsertRecord expected \x27where\x27 to have exactly one key-value pair"))

/-- Constant `minMillisBetweenRequests` (src/index.ts:161). -/
def minMillisBetweenRequests : Int := 200

/-- The wait `throttleIfNeeded` (src/index.ts:212-228) performs before a
request is dispatched, given the recorded `lastRequestAt` and the current
clock reading `now` (epoch millis).  `!this.lastRequestAt` is JS truthiness:
`null` — and a zero timestamp — mean "first request, no wait". -/
def throttleWaitMillis (lastRequestAt : Option Int) (now : Int) : Int :=
  match lastRequestAt with
  | none => 0
  | some l =>
    if l = 0 then 0
    else if minMillisBetweenRequests < now - l then 0
    else minMillisBetweenRequests - (now - l)

/-- Does an `Except` hold a thrown validation (`TypeError`) value? -/
def isValidationError {α : Type} : Except AirtableError α → Bool
  | .error (.validation _) => true
  | _ => false

/-- The `filterByFormula` of the body of a list request (`none` for other requests). -/
def reqListFormula : ApiRequest → Option String
  | .list _ p => p.filterByFormula
  | _ => none

/-- A server whose every response carries a (truthy) pagination cursor. -/
def runawayServer : Nat → ListResponse := fun _ => { offset := some "cursor" }

theorem findMany_eq_of_validate_none (o : FindManyOpts) (server : Nat → ListResponse)
    (h : findManyValidate o = none) :
    findMany o server =
      ((listLoop server (mkBasePayload o) o.tableIdOrName 502 0 none [] []).1,
       (listLoop server (mkBasePayload o) o.tableIdOrName 502 0 none [] []).2.map
         (fun agg => agg.flatten.map (mapRecord o.includeAirtableId))) := by
  unfold findMany
  rw [h]

theorem findMany_eq_of_validate_some (o : FindManyOpts) (server : Nat → ListResponse)
    (msg : String) (h : findManyValidate o = some msg) :
    findMany o server = ([], .error (.validation msg)) := by
  unfold findMany
  rw [h]

theorem listLoop_runaway (base : ListPayload) (table : String) :
    ∀ fuel n reqs agg, 1 ≤ n → n ≤ 501 → 501 - n < fuel →
      listLoop runawayServer base table fuel n (some "cursor") reqs agg =
        (reqs ++ List.replicate (501 - n)
            (ApiRequest.list table { base with offset := some "cursor" }),
         .error .runawayPagination) := by
  intro fuel
  induction fuel with
  | zero =>
    intro n reqs agg h1 h2 hf
    omega
  | succ f ih =>
    intro n reqs agg h1 h2 hf
    have htr : strTruthy (some "cursor") = true := rfl
    rcases Nat.lt_or_ge 500 n with hgt | hle
    · have hn : n = 501 := by omega
      subst hn
      unfold listLoop
      rw [if_pos (Or.inr htr), if_pos (by omega : (500 : Nat) < 501)]
      simp
    · have hstep : listLoop runawayServer base table (f + 1) n (some "cursor") reqs agg =
          listLoop runawayServer base table f (n + 1) (some "cursor")
            (reqs ++ [ApiRequest.list table { base with offset := some "cursor" }]) agg := by
        conv_lhs => unfold listLoop
        rw [if_pos (Or.inr htr), if_neg (by omega : ¬ 500 < n)]
        simp [runawayServer, strTruthy]
      rw [hstep, ih (n + 1) _ agg (by omega) (by omega) (by omega)]
      have hrep : 501 - n = (501 - (n + 1)) + 1 := by omega
      rw [hrep, List.replicate_succ, List.append_assoc]
      rfl

set_option maxRecDepth 4000 in
/-- C5 evidence: against a server that always returns a cursor, `findMany`
issues 501 list requests (the first with no offset, then 500 carrying the
cursor) before throwing the runaway-pagination error — one more than the
500-request bound its own error message states. -/
theorem findMany_cap_issues_501_requests :
    findMany { tableIdOrName := "T" } runawayServer =
      (ApiRequest.list "T" { } ::
        List.replicate 500 (ApiRequest.list "T" { offset := some "cursor" }),
       .error .runawayPagination) ∧
    (findMany { tableIdOrName := "T" } runawayServer).1.length = 501 := by
  have hv : findManyValidate { tableIdOrName := "T" } = none := rfl
  have heq := findMany_eq_of_validate_none { tableIdOrName := "T" } runawayServer hv
  have hbase : mkBasePayload { tableIdOrName := "T" } = ({ } : ListPayload) := rfl
  rw [hbase] at heq
  have hstep : listLoop runawayServer ({ } : ListPayload)
      ({ tableIdOrName := "T" } : FindManyOpts).tableIdOrName 502 0 none [] [] =
      listLoop runawayServer ({ } : ListPayload) "T" 501 1
        (some "cursor") [ApiRequest.list "T" ({ } : ListPayload)]
        [] := by
    conv_lhs => unfold listLoop
    rw [if_pos (Or.inl rfl), if_neg (by omega : ¬ (500 : Nat) < 0)]
    simp [runawayServer, strTruthy]
  rw [heq, hstep,
    listLoop_runaway ({ } : ListPayload) "T" 501 1
      [ApiRequest.list "T" ({ } : ListPayload)] []
      (by omega) (by omega) (by omega)]
  constructor
  · simp [Except.map]
  · simp

theorem listLoop_reqs_formula (server : Nat → ListResponse) (base : ListPayload)
    (table : String) :
    ∀ fuel n off reqs agg,
      (∀ r ∈ reqs, reqListFormula r = base.filterByFormula) →
      ∀ r ∈ (listLoop server base table fuel n off reqs agg).1,
        reqListFormula r = base.filterByFormula := by
  intro fuel
  induction fuel with
  | zero =>
    intro n off reqs agg hreqs r hr
    unfold listLoop at hr
    split at hr <;> exact hreqs r hr
  | succ f ih =>
    intro n off reqs agg hreqs r hr
    have hnew : ∀ q ∈ reqs ++ [ApiRequest.list table
        (if strTruthy off = true then { base with offset := off } else base)],
        reqListFormula q = base.filterByFormula := by
      intro q hq
      rcases List.mem_append.mp hq with h | h
      · exact hreqs q h
      · have hq' := List.mem_singleton.mp h
        subst hq'
        split <;> rfl
    unfold listLoop at hr
    split at hr
    · split at hr
      · exact hreqs r hr
      · dsimp only at hr
        split at hr
        · exact hnew r hr
        · exact ih _ _ _ _ hnew r hr
    · exact hreqs r hr

/-- C7: supplying both a (truthy) `filterByFormula` and a (positive)
`modifiedSinceHours` makes `findMany` throw a validation error with no
request issued; supplying only `modifiedSinceHours = H` makes every issued
list request carry exactly the synthesized
synthesized `lastModifiedTime` formula for `H` hours. -/
theorem findMany_formula_rules :
    (∀ (o : FindManyOpts) (server : Nat → ListResponse) (s : String) (hrs : Int),
      o.filterByFormula = some s → s ≠ "" →
      o.modifiedSinceHours = some hrs → 1 ≤ hrs →
      (findMany o server).1 = [] ∧ isValidationError (findMany o server).2 = true) ∧
    (∀ (o : FindManyOpts) (server : Nat → ListResponse) (hrs : Int),
      o.filterByFormula = none → o.modifiedSinceHours = some hrs → 1 ≤ hrs →
      ∀ r ∈ (findMany o server).1, reqListFormula r = some (synthFormula hrs)) := by
  constructor
  · intro o server s hrs hf hs hh hh1
    have hne : findManyValidate.findManyValidateRest o ≠ none := by
      unfold findManyValidate.findManyValidateRest
      intro hcon
      split_ifs at hcon with h1 h2 h3 h4 h5
      apply h4
      constructor
      · simp [strTruthy, hf, hs]
      · simp only [numTruthy, hh]
        simp only [bne_iff_ne, ne_eq]
        omega
    have hrest : ∃ m, findManyValidate.findManyValidateRest o = some m := by
      cases hrm : findManyValidate.findManyValidateRest o with
      | none => exact absurd hrm hne
      | some m => exact ⟨m, rfl⟩
    have hv : ∃ m, findManyValidate o = some m := by
      obtain ⟨m, hm⟩ := hrest
      unfold findManyValidate
      cases hof : o.fields with
      | none => exact ⟨m, hm⟩
      | some fs =>
        dsimp only
        by_cases hfs : ¬(0 < fs.length ∧ ∀ f ∈ fs, isNonEmptyStr f = true)
        · exact ⟨_, if_pos hfs⟩
        · refine ⟨m, ?_⟩
          rw [if_neg hfs]
          exact hm
    obtain ⟨m, hm⟩ := hv
    rw [findMany_eq_of_validate_some o server m hm]
    exact ⟨rfl, rfl⟩
  · intro o server hrs hf hh hh1
    cases hval : findManyValidate o with
    | some m =>
      rw [findMany_eq_of_validate_some o server m hval]
      intro r hr
      simp at hr
    | none =>
      rw [findMany_eq_of_validate_none o server hval]
      have hbase : (mkBasePayload o).filterByFormula = some (synthFormula hrs) := by
        unfold mkBasePayload
        have h1 : strTruthy (none : Option String) = false := rfl
        have h2 : numTruthy (some hrs) = true := by
          simp only [numTruthy, bne_iff_ne, ne_eq]
          omega
        simp [hf, hh, h1, h2]
      intro r hr
      dsimp only at hr
      rw [← hbase]
      exact listLoop_reqs_formula server (mkBasePayload o) o.tableIdOrName
        502 0 none [] [] (by intro q hq; simp at hq) r hr

/-- Witness for C7: exclusivity at a concrete call, and the exact formula
synthesized for `modifiedSinceHours = 24`. -/
theorem findMany_formula_rules_witness :
    ((findMany { filterByFormula := some "x", modifiedSinceHours := some 24,
                 tableIdOrName := "T" } runawayServer).1 = [] ∧
      isValidationError (findMany { filterByFormula := some "x",
                                    modifiedSinceHours := some 24,
                                    tableIdOrName := "T" } runawayServer).2 = true) ∧
    (∀ r ∈ (findMany { modifiedSinceHours := some 24, tableIdOrName := "T" }
        (fun _ => { })).1,
      reqListFormula r = some (synthFormula 24)) ∧
    synthFormula 24 =
      "\x7blastModifiedTime\x7d>=DATETIME_FORMAT(DATEADD(NOW(),-24,\x27hours\x27))" :=
  ⟨findMany_formula_rules.1 { filterByFormula := some "x",
                              modifiedSinceHours := some 24,
                              tableIdOrName := "T" } runawayServer
      "x" 24 rfl (by decide) rfl (by decide),
    findMany_formula_rules.2 { modifiedSinceHours := some 24, tableIdOrName := "T" }
      (fun _ => { }) 24 rfl rfl (by decide),
    by decide⟩

/-- C6: on one client instance, a request dispatched at `now + sleepMillis`
after `throttleIfNeeded` asked to sleep (the sleep primitive suspending for
at least the requested duration) starts at least 200 ms after the previously
recorded dispatch time `lastAt`; and with no recorded request
(`lastRequestAt` null) the wait is zero. -/
theorem throttle_min_spacing :
    (∀ lastAt now sleepMillis : Int, 0 < lastAt → lastAt ≤ now →
      throttleWaitMillis (some lastAt) now ≤ sleepMillis →
      lastAt + 200 ≤ now + sleepMillis) ∧
    (∀ now : Int, throttleWaitMillis none now = 0) := by
  constructor
  · intro l now s hl hseq hsleep
    unfold throttleWaitMillis minMillisBetweenRequests at hsleep
    simp only at hsleep
    split at hsleep
    · omega
    · split at hsleep <;> omega
  · intro now
    rfl

/-- Witness for C6 at `lastAt = 1000`, `now = 1100`, `sleepMillis = 100`. -/
theorem throttle_min_spacing_witness :
    (0 : Int) < 1000 ∧ (1000 : Int) ≤ 1100 ∧
      throttleWaitMillis (some 1000) 1100 ≤ 100 ∧
      (1000 : Int) + 200 ≤ 1100 + 100 ∧ throttleWaitMillis none 50 = 0 :=
  ⟨by decide, by decide, by decide,
    throttle_min_spacing.1 1000 1100 100 (by decide) (by decide) (by decide),
    throttle_min_spacing.2 50⟩

/-- C8 counterexample: `"rec1234567"` has length exactly 10 and the `rec`
prefix, so the canonical rule of the claim (length at least 10) accepts it, yet
`isValidRecordId` rejects it and `getRecord` throws the recordId validation
error without issuing any request. -/
theorem recordId_length_ten_rejected_cex :
    "rec1234567".length = 10 ∧ strStartsWith "rec1234567" "rec" = true ∧
    isValidRecordId "rec1234567" = false ∧
    getRecord "rec1234567" "T" { data := ⟨"rec-x", []⟩ } =
      ([], .error (.validation
        "Airtable getRecord expected \x27recordId\x27 to be string of at least 10 characters starting with \x27rec\x27")) := by
  refine ⟨rfl, rfl, rfl, rfl⟩

/-- C8 as amended: `getRecord` and `updateRecord` accept a `recordId`
exactly when it is a string of length strictly greater than 10 (at least 11)
starting with `"rec"`; a failing `recordId` raises the validation error
synchronously with no request issued, and a passing one issues the request. -/
theorem recordId_validation (rid table : String) (fields : FieldsObj)
    (resp resp' : AirtableResponse) (htable : isNonEmptyStr table = true) :
    (¬(10 < rid.length ∧ strStartsWith rid "rec" = true) →
      getRecord rid table resp =
        ([], .error (.validation
          "Airtable getRecord expected \x27recordId\x27 to be string of at least 10 characters starting with \x27rec\x27")) ∧
      updateRecord fields "PATCH" rid table resp' =
        ([], .error (.validation
          "Airtable updateRecord expected \x27recordId\x27 to be string of at least 10 characters starting with \x27rec\x27"))) ∧
    ((10 < rid.length ∧ strStartsWith rid "rec" = true) →
      getRecord rid table resp = ([ApiRequest.get table rid], .ok resp) ∧
      updateRecord fields "PATCH" rid table resp' =
        ([ApiRequest.update table rid "PATCH" fields], .ok resp')) := by
  have hupper : strToUpper "PATCH" = "PATCH" := by decide
  constructor
  · intro hbad
    have hinv : isValidRecordId rid = false := by
      unfold isValidRecordId
      rcases Decidable.em (10 < rid.length) with h10 | h10
      · have : strStartsWith rid "rec" = false := by
          cases hpre : strStartsWith rid "rec"
          · rfl
          · exact absurd ⟨h10, hpre⟩ hbad
        simp [this]
      · simp [h10]
    constructor
    · unfold getRecord
      simp [hinv]
    · unfold updateRecord
      simp [hupper, hinv]
  · intro hgood
    have hv : isValidRecordId rid = true := by
      unfold isValidRecordId
      simp [hgood.1, hgood.2]
    constructor
    · unfold getRecord
      simp [hv, htable]
    · unfold updateRecord
      simp [hupper, hv, htable]

/-- Witness for C8 at the valid id `"rec12345678"` (length 11) and the
invalid id `"rec"` (length 3), with table `"T"`. -/
theorem recordId_validation_witness :
    isNonEmptyStr "T" = true ∧
    (getRecord "rec12345678" "T" { data := ⟨"rec-x", []⟩ } =
      ([ApiRequest.get "T" "rec12345678"], .ok { data := ⟨"rec-x", []⟩ })) ∧
    (getRecord "rec" "T" { data := ⟨"rec-x", []⟩ } =
      ([], .error (.validation
        "Airtable getRecord expected \x27recordId\x27 to be string of at least 10 characters starting with \x27rec\x27"))) :=
  ⟨by decide,
    ((recordId_validation "rec12345678" "T" [] { data := ⟨"rec-x", []⟩ }
      { data := ⟨"rec-x", []⟩ } (by decide)).2 (by decide)).1,
    ((recordId_validation "rec" "T" [] { data := ⟨"rec-x", []⟩ }
      { data := ⟨"rec-x", []⟩ } (by decide)).1 (by decide)).1⟩

/-- C9: `upsertRecord` with an empty `$set` (and any single-pair `where`)
always throws the `findFirst` fields validation error before any request:
the empty key list of `$set` is handed to `findFirst` as its `fields`
array, which must be non-empty. -/
theorem upsertRecord_empty_set (wk : String) (wv : WhereValue) (table : String)
    (server : Server) :
    upsertRecord [] table [(wk, wv)] server =
      ([], .error (.validation
        "Airtable findFirst expected \x27fields\x27 to be a lengthy array of strings")) := by
  rfl

/-- Witness for C9 at a concrete call. -/
theorem upsertRecord_empty_set_witness :
    upsertRecord [] "T" [("k", WhereValue.str "v")]
        ⟨fun _ => {}, { data := ⟨"", []⟩ }, { data := ⟨"", []⟩ }⟩ =
      ([], .error (.validation
        "Airtable findFirst expected \x27fields\x27 to be a lengthy array of strings")) :=
  upsertRecord_empty_set "k" (WhereValue.str "v") "T"
    ⟨fun _ => {}, { data := ⟨"", []⟩ }, { data := ⟨"", []⟩ }⟩

/-- A list server presenting a fixed finite sequence of responses: the
`i`-th request is answered with the `i`-th element (requests past the end
see an empty default page, which well-formed runs never reach). -/
def serverOfPages (pages : List ListResponse) : Nat → ListResponse :=
  fun i => pages.getD i { }

theorem flatten_filter_length_pos {α : Type} (l : List (List α)) :
    (l.filter (fun rs => decide (0 < rs.length))).flatten = l.flatten := by
  induction l with
  | nil => rfl
  | cons a t ih =>
    rw [List.filter_cons]
    by_cases h : 0 < a.length
    · simp [h, ih]
    · have ha : a = [] := List.length_eq_zero.mp (Nat.eq_zero_of_not_pos h)
      simp [ha, ih]

theorem listLoop_pages (pages : List ListResponse) (base : ListPayload) (table : String)
    (hlen : pages.length ≤ 501)
    (hok : ∀ p ∈ pages, p.ok = true)
    (hmid : ∀ i, i < pages.length - 1 → strTruthy (pages.getD i { }).offset = true)
    (hlast : strTruthy (pages.getD (pages.length - 1) { }).offset = false) :
    ∀ fuel n reqs agg, 1 ≤ n → n ≤ pages.length → 501 - n < fuel →
      listLoop (serverOfPages pages) base table fuel n
        (if strTruthy (pages.getD (n - 1) { }).offset = true
          then (pages.getD (n - 1) { }).offset else none) reqs agg =
      (reqs ++ (pages.dropLast.drop (n - 1)).map
          (fun p => ApiRequest.list table { base with offset := p.offset }),
       .ok (agg ++ ((pages.drop n).map (fun p => p.records)).filter
          (fun rs => decide (0 < rs.length)))) := by
  intro fuel
  induction fuel with
  | zero =>
    intro n reqs agg h1 h2 hfuel
    omega
  | succ f ih =>
    intro n reqs agg h1 h2 hfuel
    rcases Nat.lt_or_ge n pages.length with hlt | hge
    · -- middle page: the previous response carried a truthy offset
      have hcur : strTruthy (pages.getD (n - 1) { }).offset = true :=
        hmid (n - 1) (by omega)
      rw [if_pos hcur]
      conv_lhs => unfold listLoop
      rw [if_pos (Or.inr hcur), if_neg (by omega : ¬ 500 < n)]
      have hresok : (serverOfPages pages n).ok = true := by
        unfold serverOfPages
        rw [List.getD_eq_getElem pages { } hlt]
        exact hok _ (List.getElem_mem hlt)
      have hserv : serverOfPages pages n = pages.getD n { } := rfl
      rw [hserv] at hresok
      simp only [hcur, eq_self_iff_true, if_true, hserv, hresok,
        Bool.true_eq_false, if_false]
      have IH := ih (n + 1)
        (reqs ++ [ApiRequest.list table { base with offset := (pages.getD (n - 1) { }).offset }])
        (if 0 < (pages.getD n { }).records.length
          then agg ++ [(pages.getD n { }).records] else agg)
        (by omega) (by omega) (by omega)
      simp only [Nat.add_sub_cancel] at IH
      rw [IH]
      have hdl : n - 1 < pages.dropLast.length := by
        rw [List.length_dropLast]
        omega
      have hdrop1 : pages.dropLast.drop (n - 1) =
          pages.getD (n - 1) { } :: pages.dropLast.drop n := by
        rw [List.drop_eq_getElem_cons hdl]
        have hn1 : n - 1 + 1 = n := by omega
        rw [hn1]
        congr 1
        rw [List.getElem_dropLast pages (n - 1) hdl,
          List.getD_eq_getElem pages { } (by omega : n - 1 < pages.length)]
      have hdrop2 : pages.drop n = pages.getD n { } :: pages.drop (n + 1) := by
        rw [List.drop_eq_getElem_cons hlt, List.getD_eq_getElem pages { } hlt]
      rw [hdrop1, hdrop2, Prod.mk.injEq]
      constructor
      · rw [List.map_cons, List.append_assoc, List.singleton_append]
      · rw [List.map_cons, List.filter_cons]
        by_cases hrec : 0 < (pages.getD n { }).records.length
        · rw [if_pos hrec, if_pos (show (fun rs : List AirtableRecord =>
              decide (0 < rs.length)) (pages.getD n { }).records = true from
              decide_eq_true hrec),
            List.append_assoc, List.singleton_append]
        · rw [if_neg hrec, if_neg (show ¬ (fun rs : List AirtableRecord =>
              decide (0 < rs.length)) (pages.getD n { }).records = true from by
                simp only [decide_eq_true_eq]
                exact hrec)]
    · -- last page: its offset is not truthy, the loop exits
      have hn : n = pages.length := by omega
      subst hn
      rw [hlast]
      simp only [Bool.false_eq_true, if_false]
      conv_lhs => unfold listLoop
      rw [if_neg (by
        intro hcon
        rcases hcon with h | h
        · omega
        · simp [strTruthy] at h)]
      have hd1 : pages.dropLast.drop (pages.length - 1) = [] := by
        apply List.drop_eq_nil_of_le
        rw [List.length_dropLast]
      have hd2 : pages.drop pages.length = [] := List.drop_length pages
      rw [hd1, hd2]
      simp

theorem findMany_pages_run (o : FindManyOpts) (pages : List ListResponse)
    (hv : findManyValidate o = none)
    (hne : 0 < pages.length)
    (hlen : pages.length ≤ 501)
    (hok : ∀ p ∈ pages, p.ok = true)
    (hmid : ∀ i, i < pages.length - 1 → strTruthy (pages.getD i { }).offset = true)
    (hlast : strTruthy (pages.getD (pages.length - 1) { }).offset = false) :
    findMany o (serverOfPages pages) =
      (ApiRequest.list o.tableIdOrName (mkBasePayload o) ::
        pages.dropLast.map (fun p => ApiRequest.list o.tableIdOrName
          { mkBasePayload o with offset := p.offset }),
       .ok ((pages.map (fun p => p.records)).flatten.map
         (mapRecord o.includeAirtableId))) := by
  rw [findMany_eq_of_validate_none o _ hv]
  have hok0 : (serverOfPages pages 0).ok = true := by
    unfold serverOfPages
    rw [List.getD_eq_getElem pages { } hne]
    exact hok _ (List.getElem_mem hne)
  have hstep : listLoop (serverOfPages pages) (mkBasePayload o) o.tableIdOrName
      502 0 none [] [] =
      listLoop (serverOfPages pages) (mkBasePayload o) o.tableIdOrName 501 1
        (if strTruthy (serverOfPages pages 0).offset = true
          then (serverOfPages pages 0).offset else none)
        [ApiRequest.list o.tableIdOrName (mkBasePayload o)]
        (if 0 < (serverOfPages pages 0).records.length
          then [] ++ [(serverOfPages pages 0).records] else []) := by
    conv_lhs => unfold listLoop
    rw [if_pos (Or.inl rfl), if_neg (by omega : ¬ (500 : Nat) < 0)]
    rw [if_neg (show ¬ strTruthy none = true from by simp [strTruthy])]
    rw [if_neg (show ¬ (serverOfPages pages 0).ok = false from by rw [hok0]; simp)]
    simp
  have hserv0 : serverOfPages pages 0 = pages.getD 0 { } := rfl
  have hL := listLoop_pages pages (mkBasePayload o) o.tableIdOrName hlen hok hmid hlast
    501 1 [ApiRequest.list o.tableIdOrName (mkBasePayload o)]
    (if 0 < (pages.getD 0 { }).records.length
      then [] ++ [(pages.getD 0 { }).records] else [])
    (by omega) (by omega) (by omega)
  rw [show (1 : Nat) - 1 = 0 from rfl] at hL
  rw [hstep, hserv0, hL]
  have hdrop0 : pages.drop 0 = pages.getD 0 { } :: pages.drop 1 := by
    rw [List.drop_eq_getElem_cons hne, List.getD_eq_getElem pages { } hne]
  have hfilter : (if 0 < (pages.getD 0 { }).records.length
        then [] ++ [(pages.getD 0 { }).records] else ([] : List (List AirtableRecord))) ++
      ((pages.drop 1).map (fun p => p.records)).filter
        (fun rs => decide (0 < rs.length)) =
      ((pages.map (fun p => p.records)).filter (fun rs => decide (0 < rs.length))) := by
    conv_rhs => rw [← List.drop_zero pages, hdrop0]
    rw [List.map_cons, List.filter_cons]
    by_cases hrec : 0 < (pages.getD 0 { }).records.length
    · rw [if_pos hrec, if_pos (show (fun rs : List AirtableRecord =>
          decide (0 < rs.length)) (pages.getD 0 { }).records = true from
          decide_eq_true hrec), List.nil_append, List.singleton_append]
    · rw [if_neg hrec, if_neg (show ¬ (fun rs : List AirtableRecord =>
          decide (0 < rs.length)) (pages.getD 0 { }).records = true from by
            simp only [decide_eq_true_eq]
            exact hrec), List.nil_append]
  rw [hfilter, Prod.mk.injEq]
  constructor
  · rw [List.drop_zero, List.singleton_append]
  · dsimp only
    simp only [Except.map]
    rw [flatten_filter_length_pos]

instance {ε α : Type} [DecidableEq ε] [DecidableEq α] : DecidableEq (Except ε α) :=
  fun x y =>
    match x, y with
    | .error a, .error b => decidable_of_iff (a = b) (by simp)
    | .ok a, .ok b => decidable_of_iff (a = b) (by simp)
    | .error _, .ok _ => .isFalse (by simp)
    | .ok _, .error _ => .isFalse (by simp)

/-- A two-page response sequence whose first page carries the offset `""` —
a string, but a falsy one. -/
def emptyOffsetPages : List ListResponse :=
  [ { records := [⟨"rec-a", [("f", FieldValue.str "v1")]⟩], offset := some "" },
    { records := [⟨"rec-b", [("f", FieldValue.str "v2")]⟩] } ]

/-- C1 counterexample: the first of two responses carries the string offset
`""`, so the claim demands one request per page (two) and the records of
both pages; but the loop treats the empty string as exhaustion (JS truthiness),
issues a single request and returns only the first page. -/
theorem findMany_empty_offset_cex :
    (emptyOffsetPages.getD 0 { }).offset = some "" ∧
    emptyOffsetPages.length = 2 ∧
    findMany { tableIdOrName := "T" } (serverOfPages emptyOffsetPages) =
      ([ApiRequest.list "T" { }], .ok [[("f", FieldValue.str "v1")]]) := by
  refine ⟨rfl, rfl, ?_⟩
  decide

/-- C1 as amended: for every valid `findMany` call and every sequence of at
most 501 OK responses in which each response but the last carries a
non-empty string `offset` and the last does not, `findMany` issues one list
request per page in order — the first with no offset, each later one
carrying the offset of the previous response — and returns the
concatenation of the records of all pages in response order, each mapped to its fields object
(with `_airtableId` prepended when `includeAirtableId` is set). -/
theorem findMany_pagination (o : FindManyOpts) (pages : List ListResponse)
    (hv : findManyValidate o = none)
    (hne : 0 < pages.length)
    (hlen : pages.length ≤ 501)
    (hok : ∀ p ∈ pages, p.ok = true)
    (hmid : ∀ i, i < pages.length - 1 → strTruthy (pages.getD i { }).offset = true)
    (hlast : strTruthy (pages.getD (pages.length - 1) { }).offset = false) :
    findMany o (serverOfPages pages) =
      (ApiRequest.list o.tableIdOrName (mkBasePayload o) ::
        pages.dropLast.map (fun p => ApiRequest.list o.tableIdOrName
          { mkBasePayload o with offset := p.offset }),
       .ok ((pages.map (fun p => p.records)).flatten.map
         (mapRecord o.includeAirtableId))) :=
  findMany_pages_run o pages hv hne hlen hok hmid hlast

/-- The two-page sequence used to witness C1 and C10. -/
def twoPages : List ListResponse :=
  [ { records := [⟨"rec-a", [("f", FieldValue.str "v1")]⟩], offset := some "cur1" },
    { records := [⟨"rec-b", [("f", FieldValue.str "v2")]⟩,
                  ⟨"rec-c", [("f", FieldValue.str "v3")]⟩] } ]

/-- Witness for C1: two pages joined by the offset `"cur1"` produce two
requests (the second carrying `"cur1"`) and the concatenated records. -/
theorem findMany_pagination_witness :
    findMany { tableIdOrName := "T" } (serverOfPages twoPages) =
      ([ApiRequest.list "T" { }, ApiRequest.list "T" { offset := some "cur1" }],
       .ok [[("f", FieldValue.str "v1")], [("f", FieldValue.str "v2")],
            [("f", FieldValue.str "v3")]]) :=
  (findMany_pagination { tableIdOrName := "T" } twoPages rfl (by decide)
    (by decide) (by decide) (by decide) (by decide)).trans (by decide)

/-- C10: `findMany` never truncates client-side: with `maxRecords = some m`
supplied (and forwarded in every request body) and the server returning in
total more than `m` records, the returned array still holds every record of
every page — its length is the sum of the record counts of the pages. -/
theorem findMany_no_truncation (o : FindManyOpts) (pages : List ListResponse)
    (m : Int) (hm : o.maxRecords = some m) (hm1 : 1 ≤ m)
    (hmore : m < ((pages.map (fun p => p.records.length)).sum : Int))
    (hv : findManyValidate o = none)
    (hne : 0 < pages.length)
    (hlen : pages.length ≤ 501)
    (hok : ∀ p ∈ pages, p.ok = true)
    (hmid : ∀ i, i < pages.length - 1 → strTruthy (pages.getD i { }).offset = true)
    (hlast : strTruthy (pages.getD (pages.length - 1) { }).offset = false) :
    (findMany o (serverOfPages pages)).2 =
      .ok ((pages.map (fun p => p.records)).flatten.map
        (mapRecord o.includeAirtableId)) ∧
    (∀ l, (findMany o (serverOfPages pages)).2 = .ok l →
      l.length = (pages.map (fun p => p.records.length)).sum) ∧
    (∀ r ∈ (findMany o (serverOfPages pages)).1,
      ∀ payload, r = ApiRequest.list o.tableIdOrName payload →
        payload.maxRecords = some m) := by
  have hrun := findMany_pages_run o pages hv hne hlen hok hmid hlast
  refine ⟨by rw [hrun], ?_, ?_⟩
  · intro l hl
    rw [hrun] at hl
    have hl' := Except.ok.inj hl
    rw [← hl', List.length_map, List.length_flatten, List.map_map]
    rfl
  · intro r hr payload hpay
    have hmax : (mkBasePayload o).maxRecords = some m := by
      unfold mkBasePayload
      have h2 : numTruthy (some m) = true := by
        simp only [numTruthy, bne_iff_ne, ne_eq]
        omega
      simp [hm, h2]
    rw [hrun] at hr
    rcases List.mem_cons.mp hr with h | h
    · subst hpay
      have := ApiRequest.list.inj h.symm
      rw [← this.2, hmax]
    · rcases List.mem_map.mp h with ⟨p, hp, hpr⟩
      subst hpay
      have := ApiRequest.list.inj hpr
      rw [← this.2]
      simp only [hmax]

/-- Witness for C10: `maxRecords = 2` forwarded while the server returns 3
records across two pages; all 3 come back. -/
theorem findMany_no_truncation_witness :
    (∀ l, (findMany { maxRecords := some 2, tableIdOrName := "T" }
        (serverOfPages twoPages)).2 = .ok l →
      l.length = (twoPages.map (fun p => p.records.length)).sum) ∧
    (twoPages.map (fun p => p.records.length)).sum = 3 :=
  ⟨(findMany_no_truncation { maxRecords := some 2, tableIdOrName := "T" }
      twoPages 2 rfl (by decide) (by decide) rfl (by decide) (by decide)
      (by decide) (by decide) (by decide)).2.1,
   by decide⟩

theorem computeFieldsToUpdate_eq_nil (existingFields set : FieldsObj)
    (h : ∀ kv ∈ set,
      jsStrictEq ((existingFields.lookup kv.1).getD .undef) kv.2 = true ∨
      (existingFields.lookup kv.1 = none ∧ updateToMakeIsEmpty kv.2 = true)) :
    computeFieldsToUpdate existingFields set = [] := by
  unfold computeFieldsToUpdate
  suffices hgen : ∀ (l : FieldsObj), (∀ kv ∈ l,
      jsStrictEq ((existingFields.lookup kv.1).getD .undef) kv.2 = true ∨
      (existingFields.lookup kv.1 = none ∧ updateToMakeIsEmpty kv.2 = true)) →
      ∀ acc : FieldsObj, l.foldl (fun acc kv =>
        let existing := (existingFields.lookup kv.1).getD .undef
        if jsStrictEq existing kv.2 then acc
        else if existing == .undef ∧ updateToMakeIsEmpty kv.2 then acc
        else setKey acc kv.1 kv.2) acc = acc by
    exact hgen set h []
  intro l
  induction l with
  | nil =>
    intro _ acc
    rfl
  | cons kv rest ih =>
    intro hl acc
    rw [List.foldl_cons]
    have hkv := hl kv (by simp)
    have hstep : (let existing := (existingFields.lookup kv.1).getD .undef
        if jsStrictEq existing kv.2 then acc
        else if existing == .undef ∧ updateToMakeIsEmpty kv.2 then acc
        else setKey acc kv.1 kv.2) = acc := by
      dsimp only
      rcases hkv with heq | ⟨habs, hemp⟩
      · rw [if_pos heq]
      · by_cases hjs : jsStrictEq ((existingFields.lookup kv.1).getD .undef) kv.2 = true
        · rw [if_pos hjs]
        · rw [if_neg hjs, if_pos ?_]
          constructor
          · rw [habs]
            rfl
          · exact hemp
    rw [hstep]
    exact ih (fun kv hmem => hl kv (by simp [hmem])) acc

theorem upsertRecord_found (set : FieldsObj) (table wk : String) (wv : WhereValue)
    (server : Server) (reqs1 : List ApiRequest) (found : FieldsObj) (rid : String)
    (hnk : (set.map Prod.fst).contains wk = false)
    (hff : findFirst { fields := some (set.map Prod.fst),
                       includeAirtableId := true,
                       tableIdOrName := table,
                       whereClause := [(wk, wv)] } server.pages
        = (reqs1, .ok (some found)))
    (hid : found.lookup "_airtableId" = some (.str rid))
    (hridv : isValidRecordId rid = true) :
    upsertRecord set table [(wk, wv)] server =
      (if (computeFieldsToUpdate (found.filter (fun p => p.1 != "_airtableId"))
            set).length = 0
        then (reqs1, .ok ⟨rid, .RECORD_UNCHANGED⟩)
        else
          match (updateRecord set "PATCH" rid table server.updateRes).2 with
          | .error e => (reqs1 ++ (updateRecord set "PATCH" rid table server.updateRes).1,
              .error e)
          | .ok res =>
            if isValidRecordId res.data.id = false then
              (reqs1 ++ (updateRecord set "PATCH" rid table server.updateRes).1,
                .error (.badServerRecordId
                  "Airtable upsertRecord failed to retrieve a valid \x27_airtableId\x27 from the updated record"))
            else
              (reqs1 ++ (updateRecord set "PATCH" rid table server.updateRes).1,
                .ok ⟨res.data.id, .RECORD_UPDATED⟩)) := by
  unfold upsertRecord
  dsimp only
  rw [if_neg (show ¬ (set.map Prod.fst).contains wk = true from by rw [hnk]; simp)]
  rw [hff]
  dsimp only
  rw [hid]
  dsimp only [Option.getD_some]
  rw [if_neg (show ¬ isValidRecordId rid = false from by rw [hridv]; simp)]

/-- C2: when `findFirst` returns a matching record and every `$set` entry
either is `===` to the value of the record for that key, or is absent on the
record while the new value is empty (`""`, `[]`, `false`, `null`,
`undefined`), `upsertRecord` issues no further request and resolves with
the id of the found record and `RECORD_UNCHANGED`. -/
theorem upsertRecord_unchanged (set : FieldsObj) (table wk : String) (wv : WhereValue)
    (server : Server) (reqs1 : List ApiRequest) (found : FieldsObj) (rid : String)
    (hnk : (set.map Prod.fst).contains wk = false)
    (hff : findFirst { fields := some (set.map Prod.fst),
                       includeAirtableId := true,
                       tableIdOrName := table,
                       whereClause := [(wk, wv)] } server.pages
        = (reqs1, .ok (some found)))
    (hid : found.lookup "_airtableId" = some (.str rid))
    (hridv : isValidRecordId rid = true)
    (hskip : ∀ kv ∈ set,
      jsStrictEq (((found.filter (fun p => p.1 != "_airtableId")).lookup kv.1).getD
        .undef) kv.2 = true ∨
      ((found.filter (fun p => p.1 != "_airtableId")).lookup kv.1 = none ∧
        updateToMakeIsEmpty kv.2 = true)) :
    upsertRecord set table [(wk, wv)] server =
      (reqs1, .ok ⟨rid, .RECORD_UNCHANGED⟩) := by
  rw [upsertRecord_found set table wk wv server reqs1 found rid hnk hff hid hridv]
  rw [computeFieldsToUpdate_eq_nil (found.filter (fun p => p.1 != "_airtableId"))
    set hskip]
  rfl

/-- The list payload `findFirst` sends during the upsert lookups of the witnesses
(`where` is always `{k: "v"}` there). -/
def lookupPayload (fs : List String) : ListPayload :=
  { fields := some fs
    filterByFormula := some "\x7bk\x7d=\x27v\x27"
    maxRecords := some 1 }

/-- The server used to witness the upsert claims: `findFirst` locates
`rec123456789` with field `a = "x"`; the update endpoint answers with
`rec_updated_9`, the create endpoint with `rec_created_1`. -/
def foundServer : Server :=
  { pages := fun i =>
      if i = 0 then
        { records := [⟨"rec123456789", [("a", FieldValue.str "x")]⟩], offset := none }
      else { }
    createRes := { data := ⟨"rec_created_1", []⟩ }
    updateRes := { data := ⟨"rec_updated_9", []⟩ } }

/-- Witness for C2: `$set = {a: "x"}` matches the found record exactly, so
the only request is the lookup and the result is `RECORD_UNCHANGED`. -/
theorem upsertRecord_unchanged_witness :
    upsertRecord [("a", FieldValue.str "x")] "T" [("k", WhereValue.str "v")]
        foundServer =
      ([ApiRequest.list "T" (lookupPayload ["a"])],
       .ok ⟨"rec123456789", .RECORD_UNCHANGED⟩) :=
  upsertRecord_unchanged [("a", FieldValue.str "x")] "T" "k" (WhereValue.str "v")
    foundServer
    [ApiRequest.list "T" (lookupPayload ["a"])]
    [("_airtableId", FieldValue.str "rec123456789"), ("a", FieldValue.str "x")]
    "rec123456789" (by decide) (by decide) (by decide) (by decide) (by decide)

/-- C3 counterexample: with `$set = {a: "x", b: "y"}` found as `{a: "x"}`,
the computed update set is `{b: "y"}` alone, yet the PATCH request issued
carries the full `$set` `{a: "x", b: "y"}` — not the computed update set. -/
theorem upsertRecord_full_set_cex :
    (upsertRecord [("a", FieldValue.str "x"), ("b", FieldValue.str "y")] "T"
        [("k", WhereValue.str "v")] foundServer).1 =
      [ApiRequest.list "T" (lookupPayload ["a", "b"]),
       ApiRequest.update "T" "rec123456789" "PATCH"
         [("a", FieldValue.str "x"), ("b", FieldValue.str "y")]] ∧
    computeFieldsToUpdate [("a", FieldValue.str "x")]
        [("a", FieldValue.str "x"), ("b", FieldValue.str "y")] =
      [("b", FieldValue.str "y")] ∧
    ([("a", FieldValue.str "x"), ("b", FieldValue.str "y")] : FieldsObj) ≠
      [("b", FieldValue.str "y")] := by
  refine ⟨?_, by decide, by decide⟩
  decide

/-- C3 as amended: when a record is found and the computed update set is
non-empty, `upsertRecord` issues exactly one PATCH `updateRecord` request
whose fields are exactly the full `$set`, and resolves with the updated
id of the updated record and `RECORD_UPDATED`. -/
theorem upsertRecord_updated (set : FieldsObj) (table wk : String) (wv : WhereValue)
    (server : Server) (reqs1 : List ApiRequest) (found : FieldsObj) (rid : String)
    (hnk : (set.map Prod.fst).contains wk = false)
    (htable : isNonEmptyStr table = true)
    (hff : findFirst { fields := some (set.map Prod.fst),
                       includeAirtableId := true,
                       tableIdOrName := table,
                       whereClause := [(wk, wv)] } server.pages
        = (reqs1, .ok (some found)))
    (hid : found.lookup "_airtableId" = some (.str rid))
    (hridv : isValidRecordId rid = true)
    (hchanged : computeFieldsToUpdate (found.filter (fun p => p.1 != "_airtableId"))
      set ≠ [])
    (hupd : isValidRecordId server.updateRes.data.id = true) :
    upsertRecord set table [(wk, wv)] server =
      (reqs1 ++ [ApiRequest.update table rid "PATCH" set],
       .ok ⟨server.updateRes.data.id, .RECORD_UPDATED⟩) := by
  rw [upsertRecord_found set table wk wv server reqs1 found rid hnk hff hid hridv]
  rw [if_neg (by
    intro hc
    exact hchanged (List.length_eq_zero.mp hc))]
  have hupdrec : updateRecord set "PATCH" rid table server.updateRes =
      ([ApiRequest.update table rid "PATCH" set], .ok server.updateRes) := by
    unfold updateRecord
    rw [if_neg (by decide), if_neg (by rw [hridv]; simp),
      if_neg (by rw [htable]; simp)]
    have hp : strToUpper "PATCH" = "PATCH" := by decide
    rw [hp]
  rw [hupdrec]
  dsimp only
  rw [if_neg (by rw [hupd]; simp)]

/-- Witness for C3: `$set = {a: "x", b: "y"}` against the found `{a: "x"}`
has non-empty update set, so one PATCH fires and `RECORD_UPDATED` returns
the id of the updated record. -/
theorem upsertRecord_updated_witness :
    upsertRecord [("a", FieldValue.str "x"), ("b", FieldValue.str "y")] "T"
        [("k", WhereValue.str "v")] foundServer =
      ([ApiRequest.list "T" (lookupPayload ["a", "b"]),
        ApiRequest.update "T" "rec123456789" "PATCH"
          [("a", FieldValue.str "x"), ("b", FieldValue.str "y")]],
       .ok ⟨"rec_updated_9", .RECORD_UPDATED⟩) :=
  upsertRecord_updated [("a", FieldValue.str "x"), ("b", FieldValue.str "y")] "T"
    "k" (WhereValue.str "v") foundServer
    [ApiRequest.list "T" (lookupPayload ["a", "b"])]
    [("_airtableId", FieldValue.str "rec123456789"), ("a", FieldValue.str "x")]
    "rec123456789" (by decide) (by decide) (by decide) (by decide) (by decide)
    (by decide) (by decide)

/-- C4: when `findFirst` finds no record, `upsertRecord` issues exactly one
create request (and no update), with fields `$set` spread first and then the
single `where` pair, and resolves with the id of the created record and
`RECORD_CREATED`. -/
theorem upsertRecord_created (set : FieldsObj) (table wk : String) (wv : WhereValue)
    (server : Server) (reqs1 : List ApiRequest)
    (hnk : (set.map Prod.fst).contains wk = false)
    (htable : isNonEmptyStr table = true)
    (hff : findFirst { fields := some (set.map Prod.fst),
                       includeAirtableId := true,
                       tableIdOrName := table,
                       whereClause := [(wk, wv)] } server.pages
        = (reqs1, .ok none))
    (hcid : isValidRecordId server.createRes.data.id = true) :
    upsertRecord set table [(wk, wv)] server =
      (reqs1 ++ [ApiRequest.create table (jsSpread set [(wk, wv.toFieldValue)])],
       .ok ⟨server.createRes.data.id, .RECORD_CREATED⟩) := by
  unfold upsertRecord
  dsimp only
  rw [if_neg (show ¬ (set.map Prod.fst).contains wk = true from by rw [hnk]; simp)]
  rw [hff]
  dsimp only
  have hcr : createRecord (jsSpread set [(wk, wv.toFieldValue)]) table
      server.createRes =
      ([ApiRequest.create table (jsSpread set [(wk, wv.toFieldValue)])],
       .ok server.createRes) := by
    unfold createRecord
    rw [if_neg (show ¬ ¬ isNonEmptyStr table = true from by rw [htable]; simp)]
  rw [hcr]
  dsimp only
  rw [if_neg (show ¬ isValidRecordId server.createRes.data.id = false from by
    rw [hcid]; simp)]

/-- The server used to witness C4: no record matches, creation succeeds. -/
def notFoundServer : Server :=
  { pages := fun _ => { }
    createRes := { data := ⟨"rec_created_1", []⟩ }
    updateRes := { data := ⟨"rec_updated_9", []⟩ } }

/-- Witness for C4: nothing found, one create request carrying
`{a: "x", k: "v"}`, result `RECORD_CREATED` with the created id. -/
theorem upsertRecord_created_witness :
    upsertRecord [("a", FieldValue.str "x")] "T" [("k", WhereValue.str "v")]
        notFoundServer =
      ([ApiRequest.list "T" (lookupPayload ["a"]),
        ApiRequest.create "T"
          [("a", FieldValue.str "x"), ("k", FieldValue.str "v")]],
       .ok ⟨"rec_created_1", .RECORD_CREATED⟩) :=
  (upsertRecord_created [("a", FieldValue.str "x")] "T" "k" (WhereValue.str "v")
    notFoundServer
    [ApiRequest.list "T" (lookupPayload ["a"])]
    (by decide) (by decide) (by decide) (by decide)).trans (by decide)

end Airtable
